import Mathlib

/-!
Shallow embedding of the political-reps-api backend (Express + PostgreSQL).

Source files embedded here:
  src/backend/middleware/validation.js  (Joi schemas, createValidator, rateLimit)
  src/backend/routes/representatives.js (ZIP lookup, detail, search routes)
  database schema (geography, representatives, rep_geography_map)

Conventions of the embedding:
  SQL rows are records, tables are lists, the database is a record of
  tables.  Nullable columns are Option.  The branch / jurisdiction_level
  columns are a closed enumeration (schema CHECK constraint).  JavaScript
  string falsiness (only the empty string is falsy) is modelled explicitly.
  SQL string comparison (ORDER BY r.name) is modelled as lexicographic
  comparison of the character lists.  ILIKE with a pattern obtained by
  surrounding the criterion with percent signs is modelled as
  case-insensitive substring containment; wildcard metacharacters inside
  the user-supplied criterion are not modelled (no claim depends on them).
  Timestamps of Date.now are integers (milliseconds).  Each route handler
  returns the HTTP response together with the number of storage queries it
  issued, so that claims about storage access are statable.
-/

/-- Branch column of the representatives table (CHECK constraint in the schema)
and jurisdiction_level of the mapping table. -/
inductive Branch where
  | federal
  | state
  | «local»
deriving DecidableEq, Repr

/-- String value of a branch as stored in the VARCHAR column. -/
def Branch.toStr : Branch → String
  | .federal => "federal"
  | .state => "state"
  | .«local» => "local"

/-- Row of the geography table.  Latitude and longitude are kept as the raw
decimal strings the pg driver returns; no claim involves them. -/
structure Geography where
  id : Nat
  zip_code : String
  city : Option String := none
  state : String
  state_name : Option String := none
  county : Option String := none
  congressional_district : Option String := none
  latitude : Option String := none
  longitude : Option String := none
deriving DecidableEq, Repr

/-- Row of the representatives table. -/
structure Representative where
  id : Nat
  name : String
  title : String
  party : Option String := none
  branch : Branch
  office_type : Option String := none
  phone : Option String := none
  email : Option String := none
  website : Option String := none
  photo_url : Option String := none
  address_line1 : Option String := none
  address_line2 : Option String := none
  address_city : Option String := none
  address_state : Option String := none
  address_zip : Option String := none
  term_start : Option String := none
  term_end : Option String := none
  is_active : Bool := true
  created_at : String := ""
  updated_at : String := ""
deriving DecidableEq, Repr

/-- Row of the rep_geography_map table. -/
structure RepGeographyMap where
  id : Nat
  representative_id : Nat
  geography_id : Nat
  jurisdiction_level : Branch
deriving DecidableEq, Repr

/-- The relational store: one list per table. -/
structure DB where
  geography : List Geography
  representatives : List Representative
  rep_geography_map : List RepGeographyMap
deriving DecidableEq, Repr

/-- Query string of a request: association list from field name to raw value. -/
abbrev Query := List (String × String)

/-- One entry of the details array of a 422 response (validation.js line 83). -/
structure FieldError where
  field : String
  message : String
  value : Option String
deriving DecidableEq, Repr

/-- Test for the Joi pattern of the zip field: exactly five ASCII digits. -/
def isFiveDigitZip (s : String) : Bool :=
  s.data.length == 5 && s.data.all Char.isDigit

/-- Joi validation of the zipQuery schema with abortEarly false and
stripUnknown true (validation.js lines 5-13 and 76-80): the zip field is
required and must match the five-digit pattern; every other query field is
stripped from the validated value. -/
def validateZipQuery (q : Query) : Except (List FieldError) Query :=
  match q.lookup "zip" with
  | none => .error [⟨"zip", "ZIP code is required", none⟩]
  | some z =>
    if z = "" then .error [⟨"zip", "\"zip\" is not allowed to be empty", some z⟩]
    else if isFiveDigitZip z then .ok [("zip", z)]
    else .error [⟨"zip", "ZIP code must be exactly 5 digits", some z⟩]

/-- JavaScript string truthiness for query values: undefined and the empty
string are falsy, every other string is truthy. -/
def truthyStr : Option String → Option String
  | some s => if s = "" then none else some s
  | none => none

/-- Accumulate decimal digits, consuming the longest digit prefix
(the tail of the work of the JavaScript parseInt). -/
def parseIntAcc : List Char → Nat → Nat
  | [], acc => acc
  | c :: cs, acc => if c.isDigit then parseIntAcc cs (acc * 10 + (c.toNat - 48)) else acc

/-- Value of a hexadecimal digit, if any. -/
def hexDigitVal : Char → Option Nat :=
  fun c =>
    if c.isDigit then some (c.toNat - 48)
    else if 'a' ≤ c ∧ c ≤ 'f' then some (c.toNat - 87)
    else if 'A' ≤ c ∧ c ≤ 'F' then some (c.toNat - 55)
    else none

/-- Accumulate hexadecimal digits, consuming the longest hex-digit prefix. -/
def parseHexAcc : List Char → Nat → Nat
  | [], acc => acc
  | c :: cs, acc =>
    match hexDigitVal c with
    | some v => parseHexAcc cs (acc * 16 + v)
    | none => acc

/-- Magnitude part of the JavaScript parseInt with inferred radix: a
leading 0x or 0X prefix switches to base 16; otherwise the longest decimal
digit prefix is taken; no digit at all gives NaN (none). -/
def parseIntMagnitude : List Char → Option Nat
  | '0' :: 'x' :: rest =>
    match rest with
    | c :: _ => if (hexDigitVal c).isSome then some (parseHexAcc rest 0) else none
    | [] => none
  | '0' :: 'X' :: rest =>
    match rest with
    | c :: _ => if (hexDigitVal c).isSome then some (parseHexAcc rest 0) else none
    | [] => none
  | c :: cs => if c.isDigit then some (parseIntAcc cs (c.toNat - 48)) else none
  | [] => none

/-- JavaScript parseInt on a string (radix not given): skip leading
whitespace, read an optional sign, then the longest numeric prefix; none
models NaN. -/
def parseIntJS (s : String) : Option Int :=
  match s.data.dropWhile Char.isWhitespace with
  | '-' :: rest => (parseIntMagnitude rest).map (fun n => -(n : Int))
  | '+' :: rest => (parseIntMagnitude rest).map (fun n => (n : Int))
  | cs => (parseIntMagnitude cs).map (fun n => (n : Int))

/-- Nested contact block of the public representations. -/
structure Contact where
  phone : Option String
  email : Option String
  website : Option String
deriving DecidableEq, Repr

/-- Nested address block; built only when address_line1 is truthy. -/
structure Address where
  line1 : String
  line2 : Option String
  city : Option String
  state : Option String
  zip : Option String
deriving DecidableEq, Repr

/-- Nested term block with start and end dates. -/
structure TermDates where
  start : Option String
  «end» : Option String
deriving DecidableEq, Repr

/-- One formatted representative of the ZIP lookup response
(representatives.js lines 88-114). -/
structure RepView where
  id : Nat
  name : String
  title : String
  party : Option String
  branch : Branch
  office_type : Option String
  contact : Contact
  address : Option Address
  photo_url : Option String
  term : TermDates
  is_active : Bool
  jurisdiction_level : Branch
deriving DecidableEq, Repr

/-- Formatting of one joined row into the public representative shape.
The address block is present exactly when address_line1 is truthy. -/
def formatRep (r : Representative) (jl : Branch) : RepView :=
  { id := r.id
    name := r.name
    title := r.title
    party := r.party
    branch := r.branch
    office_type := r.office_type
    contact := ⟨r.phone, r.email, r.website⟩
    address :=
      match r.address_line1 with
      | some l1 =>
        if l1 = "" then none
        else some ⟨l1, r.address_line2, r.address_city, r.address_state, r.address_zip⟩
      | none => none
    photo_url := r.photo_url
    term := ⟨r.term_start, r.term_end⟩
    is_active := r.is_active
    jurisdiction_level := jl }

/-- Join of representatives with rep_geography_map on the representative id,
restricted to one geography id (the FROM/JOIN/WHERE core of the ZIP route
query, representatives.js lines 50-61). -/
def repRowsForGeography (db : DB) (gid : Nat) : List (Representative × RepGeographyMap) :=
  db.representatives.flatMap fun r =>
    (db.rep_geography_map.filter fun m =>
      m.representative_id == r.id && m.geography_id == gid).map fun m => (r, m)

/-- Sort key of the CASE expression in the ORDER BY clause
(representatives.js lines 77-83): federal 1, state 2, local 3. -/
def branchOrder : Branch → Nat
  | .federal => 1
  | .state => 2
  | .«local» => 3

/-- Comparison used to model the ORDER BY of the ZIP route: branch priority
first, then name ascending (codepoint-lexicographic). -/
def repRowRel (a b : Representative × RepGeographyMap) : Prop :=
  branchOrder a.1.branch < branchOrder b.1.branch ∨
    (branchOrder a.1.branch = branchOrder b.1.branch ∧ a.1.name.data ≤ b.1.name.data)

instance : DecidableRel repRowRel := fun a b =>
  decidable_of_iff
    (branchOrder a.1.branch < branchOrder b.1.branch ∨
      (branchOrder a.1.branch = branchOrder b.1.branch ∧ a.1.name.data ≤ b.1.name.data))
    Iff.rfl

instance : IsTotal (Representative × RepGeographyMap) repRowRel where
  total a b := by
    unfold repRowRel
    rcases Nat.lt_trichotomy (branchOrder a.1.branch) (branchOrder b.1.branch) with h | h | h
    · exact Or.inl (Or.inl h)
    · rcases le_total a.1.name.data b.1.name.data with hn | hn
      · exact Or.inl (Or.inr ⟨h, hn⟩)
      · exact Or.inr (Or.inr ⟨h.symm, hn⟩)
    · exact Or.inr (Or.inl h)

instance : IsTrans (Representative × RepGeographyMap) repRowRel where
  trans a b c hab hbc := by
    unfold repRowRel at *
    rcases hab with hab | ⟨hab, hab2⟩
    · rcases hbc with hbc | ⟨hbc, _⟩
      · exact Or.inl (hab.trans hbc)
      · exact Or.inl (hbc ▸ hab)
    · rcases hbc with hbc | ⟨hbc, hbc2⟩
      · exact Or.inl (hab ▸ hbc)
      · exact Or.inr ⟨hab.trans hbc, hab2.trans hbc2⟩

/-- Filtered join rows of the ZIP route query: the geography join restricted
by the is_active filter (added unless include_inactive is the string true)
and the branch filter (added when the branch value is truthy). -/
def zipFilteredRows (db : DB) (gid : Nat) (include_inactive : String)
    (branch : Option String) : List (Representative × RepGeographyMap) :=
  let rows : List (Representative × RepGeographyMap) := repRowsForGeography db gid
  let rows : List (Representative × RepGeographyMap) :=
    if include_inactive != "true" then rows.filter (fun rm => rm.1.is_active) else rows
  match branch with
  | some b => if b ≠ "" then rows.filter (fun rm => rm.1.branch.toStr == b) else rows
  | none => rows

/-- Ordered, formatted representative list of the ZIP route: the filtered
rows sorted by branch priority then name, each formatted with the
jurisdiction_level of its mapping row. -/
def zipAllList (db : DB) (gid : Nat) (include_inactive : String)
    (branch : Option String) : List RepView :=
  ((zipFilteredRows db gid include_inactive branch).insertionSort repRowRel).map
    (fun rm => formatRep rm.1 rm.2.jurisdiction_level)

/-- Location block of the ZIP lookup response.  Coordinates are present only
when both raw values are truthy (representatives.js line 131). -/
structure LocationView where
  city : Option String
  state : String
  state_name : Option String
  county : Option String
  congressional_district : Option String
  coordinates : Option (String × String)
deriving DecidableEq, Repr

/-- Branch-grouped buckets of the ZIP lookup response, keyed by the branch
field of the formatted representative. -/
structure ByBranch where
  federal : List RepView
  state : List RepView
  «local» : List RepView
deriving DecidableEq, Repr

/-- Representatives block of the ZIP lookup response. -/
structure RepresentativesBlock where
  count : Nat
  by_branch : ByBranch
  all : List RepView
deriving DecidableEq, Repr

/-- Body of a successful ZIP lookup response; include_inactive and
branch_filter are the meta echo fields (timestamp is not modelled). -/
structure ZipOkBody where
  zip : String
  location : LocationView
  representatives : RepresentativesBlock
  include_inactive : Bool
  branch_filter : String
deriving DecidableEq, Repr

/-- Served area entry of the detail response; all fields are null for the
row an outer join produces when the representative has no mapping. -/
structure ServedArea where
  zip_code : Option String
  city : Option String
  state : Option String
  congressional_district : Option String
deriving DecidableEq, Repr

/-- Body of a successful representative detail response
(representatives.js lines 212-240). -/
structure RepDetailBody where
  id : Nat
  name : String
  title : String
  party : Option String
  branch : Branch
  office_type : Option String
  contact : Contact
  address : Option Address
  photo_url : Option String
  term : TermDates
  is_active : Bool
  served_areas : List ServedArea
  created_at : String
  updated_at : String
deriving DecidableEq, Repr

/-- One row of the SELECT DISTINCT list of the search query, including the
windowed total_count column (representatives.js lines 280-283). -/
structure SearchSelectedRow where
  id : Nat
  name : String
  title : String
  party : Option String
  branch : Branch
  office_type : Option String
  phone : Option String
  email : Option String
  website : Option String
  is_active : Bool
  total_count : Nat
deriving DecidableEq, Repr

/-- One formatted search result (representatives.js lines 323-336). -/
structure SearchView where
  id : Nat
  name : String
  title : String
  party : Option String
  branch : Branch
  office_type : Option String
  contact : Contact
  is_active : Bool
deriving DecidableEq, Repr

/-- Pagination block of the search response (representatives.js lines 337-342). -/
structure Pagination where
  total : Nat
  limit : Int
  offset : Int
  has_more : Bool
deriving DecidableEq, Repr

/-- Echo of the search criteria (truthy values, null otherwise). -/
structure SearchCriteria where
  name : Option String
  party : Option String
  branch : Option String
  state : Option String
deriving DecidableEq, Repr

/-- Body of a successful search response. -/
structure SearchBody where
  results : List SearchView
  pagination : Pagination
  search_criteria : SearchCriteria
deriving DecidableEq, Repr

/-- HTTP responses the representatives router can produce; each constructor
carries the body fields the code builds (timestamps are not modelled). -/
inductive Response where
  | validationFailed (error : String) (details : List FieldError)
  | zipNotFound (error message suggestion : String)
  | zipOk (body : ZipOkBody)
  | invalidId (error message : String)
  | repNotFound (error message : String)
  | repDetail (body : RepDetailBody)
  | searchCriteriaRequired (error message : String)
  | searchOk (body : SearchBody)
  | internalError (error message : String)
deriving DecidableEq, Repr

/-- HTTP status code of each response shape. -/
def Response.status : Response → Nat
  | .validationFailed .. => 422
  | .zipNotFound .. => 404
  | .zipOk .. => 200
  | .invalidId .. => 400
  | .repNotFound .. => 404
  | .repDetail .. => 200
  | .searchCriteriaRequired .. => 400
  | .searchOk .. => 200
  | .internalError .. => 500

/-- Handler of GET /representatives after the validation middleware
(representatives.js lines 23-162).  The second component counts storage
queries.  The undefined zip case renders the template literal the way
JavaScript would; it is unreachable behind the validator. -/
def representativesRoot (db : DB) (q : Query) : Response × Nat :=
  match q.lookup "zip" with
  | none =>
    (.zipNotFound "ZIP code not found" "No data available for ZIP code undefined"
      "Please verify the ZIP code or try a nearby area", 1)
  | some zip =>
    match db.geography.filter (fun g => g.zip_code == zip) with
    | [] =>
      (.zipNotFound "ZIP code not found" ("No data available for ZIP code " ++ zip)
        "Please verify the ZIP code or try a nearby area", 1)
    | g :: _ =>
      let include_inactive := (q.lookup "include_inactive").getD "false"
      let branch := q.lookup "branch"
      let representatives := zipAllList db g.id include_inactive branch
      let grouped : ByBranch :=
        { federal := representatives.filter (fun rv => rv.branch == Branch.federal)
          state := representatives.filter (fun rv => rv.branch == Branch.state)
          «local» := representatives.filter (fun rv => rv.branch == Branch.«local») }
      (.zipOk
        { zip := g.zip_code
          location :=
            { city := g.city
              state := g.state
              state_name := g.state_name
              county := g.county
              congressional_district := g.congressional_district
              coordinates :=
                match g.latitude, g.longitude with
                | some la, some lo => if la ≠ "" && lo ≠ "" then some (la, lo) else none
                | _, _ => none }
          representatives :=
            { count := representatives.length
              by_branch := grouped
              all := representatives }
          include_inactive := include_inactive == "true"
          branch_filter :=
            match branch with
            | some b => if b = "" then "all" else b
            | none => "all" }, 2)

/-- GET /representatives end to end: the createValidator middleware for the
zipQuery schema runs first and replaces req.query with the validated value;
a validation error answers 422 without reaching the handler. -/
def representativesZipEndpoint (db : DB) (q : Query) : Response × Nat :=
  match validateZipQuery q with
  | .error details => (.validationFailed "Validation failed" details, 0)
  | .ok validated => representativesRoot db validated

/-- Aggregated served areas of one representative: the LEFT JOINs give one
all-null entry when no mapping exists, otherwise one entry per mapping with
the geography columns (null when the geography row is missing). -/
def servedAreasFor (db : DB) (rid : Nat) : List ServedArea :=
  match db.rep_geography_map.filter (fun m => m.representative_id == rid) with
  | [] => [⟨none, none, none, none⟩]
  | m :: ms =>
    (m :: ms).map fun m =>
      match db.geography.find? (fun g => g.id == m.geography_id) with
      | some g => ⟨some g.zip_code, g.city, some g.state, g.congressional_district⟩
      | none => ⟨none, none, none, none⟩

/-- Handler of GET /representatives/:id (representatives.js lines 169-253).
A falsy or unparseable id answers 400 before any query; otherwise the
detail query runs with the parseInt value of the id. -/
def representativeDetail (db : DB) (id : String) : Response × Nat :=
  if id = "" then
    (.invalidId "Invalid representative ID" "Representative ID must be a valid number", 0)
  else
    match parseIntJS id with
    | none =>
      (.invalidId "Invalid representative ID" "Representative ID must be a valid number", 0)
    | some n =>
      match db.representatives.filter (fun r => ((r.id : Int) == n)) with
      | [] =>
        (.repNotFound "Representative not found" ("No representative found with ID " ++ id), 1)
      | r :: _ =>
        (.repDetail
          { id := r.id
            name := r.name
            title := r.title
            party := r.party
            branch := r.branch
            office_type := r.office_type
            contact := ⟨r.phone, r.email, r.website⟩
            address :=
              match r.address_line1 with
              | some l1 =>
                if l1 = "" then none
                else some ⟨l1, r.address_line2, r.address_city, r.address_state, r.address_zip⟩
              | none => none
            photo_url := r.photo_url
            term := ⟨r.term_start, r.term_end⟩
            is_active := r.is_active
            served_areas := (servedAreasFor db r.id).filter (fun a => a.zip_code.isSome)
            created_at := r.created_at
            updated_at := r.updated_at }, 1)

/-- Containment of one character list in another as a contiguous segment. -/
def containsSeg (needle : List Char) : List Char → Bool
  | [] => needle.isEmpty
  | c :: rest => needle.isPrefixOf (c :: rest) || containsSeg needle rest

/-- ILIKE of a column against a pattern that surrounds the criterion with
percent signs, modelled as case-insensitive substring containment; a null
column never matches (NULL comparisons are filtered out by WHERE). -/
def ilikeContains (column : Option String) (criterion : String) : Bool :=
  match column with
  | none => false
  | some v => containsSeg (criterion.data.map Char.toLower) (v.data.map Char.toLower)

/-- One row of the search FROM clause: representatives LEFT JOIN
rep_geography_map LEFT JOIN geography (representatives.js lines 284-286). -/
structure SearchRow where
  rep : Representative
  mapRow : Option RepGeographyMap
  geo : Option Geography
deriving DecidableEq, Repr

/-- The two LEFT JOINs of the search query: a representative without
mappings keeps one row with null join columns; each mapping contributes a
row whose geography is looked up by id (ids are unique in the table). -/
def searchJoinRows (db : DB) : List SearchRow :=
  db.representatives.flatMap fun r =>
    match db.rep_geography_map.filter (fun m => m.representative_id == r.id) with
    | [] => [⟨r, none, none⟩]
    | m :: ms =>
      (m :: ms).map fun m => ⟨r, some m, db.geography.find? (fun g => g.id == m.geography_id)⟩

/-- WHERE clause of the search query: is_active always, then each provided
criterion (representatives.js lines 287-315).  The criteria record holds
the truthy-normalized values. -/
def searchFilter (crit : SearchCriteria) (row : SearchRow) : Bool :=
  row.rep.is_active
    && (match crit.name with
        | some nm => ilikeContains (some row.rep.name) nm
        | none => true)
    && (match crit.party with
        | some p => ilikeContains row.rep.party p
        | none => true)
    && (match crit.branch with
        | some b => row.rep.branch.toStr == b
        | none => true)
    && (match crit.state with
        | some st =>
          (match row.geo with
           | some g => g.state.data == st.data.map Char.toUpper
           | none => false)
        | none => true)

/-- SELECT list of the search query applied to one joined row; total is the
value of the COUNT(*) OVER() window, identical on every row. -/
def selectSearchRow (total : Nat) (row : SearchRow) : SearchSelectedRow :=
  { id := row.rep.id
    name := row.rep.name
    title := row.rep.title
    party := row.rep.party
    branch := row.rep.branch
    office_type := row.rep.office_type
    phone := row.rep.phone
    email := row.rep.email
    website := row.rep.website
    is_active := row.rep.is_active
    total_count := total }

/-- Duplicate elimination keeping the first occurrence of each row, with an
accumulator of rows already emitted (SELECT DISTINCT). -/
def distinctFrom {α : Type} [DecidableEq α] (seen : List α) : List α → List α
  | [] => []
  | x :: xs => if x ∈ seen then distinctFrom seen xs else x :: distinctFrom (x :: seen) xs

/-- SELECT DISTINCT over the selected rows. -/
def searchDistinct (l : List SearchSelectedRow) : List SearchSelectedRow :=
  distinctFrom [] l

/-- ORDER BY r.name of the search query (codepoint-lexicographic). -/
def searchNameRel (a b : SearchSelectedRow) : Prop :=
  a.name.data ≤ b.name.data

instance : DecidableRel searchNameRel := fun a b =>
  decidable_of_iff (a.name.data ≤ b.name.data) Iff.rfl

instance : IsTotal SearchSelectedRow searchNameRel where
  total a b := le_total a.name.data b.name.data

instance : IsTrans SearchSelectedRow searchNameRel where
  trans _ _ _ hab hbc := le_trans hab hbc

/-- Formatting of one selected row into the public search result shape. -/
def toSearchView (r : SearchSelectedRow) : SearchView :=
  { id := r.id
    name := r.name
    title := r.title
    party := r.party
    branch := r.branch
    office_type := r.office_type
    contact := ⟨r.phone, r.email, r.website⟩
    is_active := r.is_active }

/-- Truthy-normalized criteria read from the query string. -/
def searchCriteriaOf (q : Query) : SearchCriteria :=
  { name := truthyStr (q.lookup "name")
    party := truthyStr (q.lookup "party")
    branch := truthyStr (q.lookup "branch")
    state := truthyStr (q.lookup "state") }

/-- Full filtered (pre-DISTINCT, unpaginated) row set of the search query. -/
def searchFilteredRows (db : DB) (crit : SearchCriteria) : List SearchRow :=
  (searchJoinRows db).filter (searchFilter crit)

/-- Rows of the returned page: the selected rows (with the windowed
COUNT(*) OVER() value computed on the pre-DISTINCT filtered set), made
DISTINCT, ordered by name, then OFFSET and LIMIT applied. -/
def searchPage (db : DB) (crit : SearchCriteria) (l o : Int) : List SearchSelectedRow :=
  let filtered := searchFilteredRows db crit
  let selected := filtered.map (selectSearchRow filtered.length)
  (((searchDistinct selected).insertionSort searchNameRel).drop o.toNat).take l.toNat

/-- Handler of GET /representatives/search (representatives.js lines
260-363).  With no truthy criterion the request is rejected before any
query.  The limit and offset strings go through parseInt; a NaN or
negative value makes the database reject the query, surfacing as the
500 catch branch.  Window count, DISTINCT, ORDER BY and LIMIT/OFFSET are
applied in the PostgreSQL evaluation order: the COUNT(*) OVER() window is
computed on the pre-DISTINCT filtered rows, then DISTINCT, then the sort
by name, then OFFSET and LIMIT. -/
def representativesSearch (db : DB) (q : Query) : Response × Nat :=
  let crit := searchCriteriaOf q
  if crit.name.isNone && crit.party.isNone && crit.branch.isNone && crit.state.isNone then
    (.searchCriteriaRequired "Search criteria required"
      "Please provide at least one search parameter (name, party, branch, or state)", 0)
  else
    let limit? := match q.lookup "limit" with
                  | some s => parseIntJS s
                  | none => some 20
    let offset? := match q.lookup "offset" with
                   | some s => parseIntJS s
                   | none => some 0
    match limit?, offset? with
    | some l, some o =>
      if l < 0 ∨ o < 0 then
        (.internalError "Internal server error" "Unable to perform search", 1)
      else
        let page := searchPage db crit l o
        (.searchOk
          { results := page.map toSearchView
            pagination :=
              { total := match page with
                         | [] => 0
                         | r :: _ => r.total_count
                limit := l
                offset := o
                has_more := (page.length : Int) == l }
            search_criteria := crit }, 1)
    | _, _ =>
      (.internalError "Internal server error" "Unable to perform search", 1)

/-- Route patterns an Express router can register for the paths that occur
in this router: the mount root, a single named parameter segment, or a
literal segment. -/
inductive RoutePattern where
  | root
  | param
  | lit (seg : String)
deriving DecidableEq, Repr

/-- Names of the three GET routes of the representatives router. -/
inductive RouteName where
  | zipRoute
  | idRoute
  | searchRoute
deriving DecidableEq, Repr

/-- Match of a pattern against a request path (list of segments below the
mount point). -/
def patternMatches : RoutePattern → List String → Bool
  | .root, [] => true
  | .param, [_] => true
  | .lit s, [seg] => s == seg
  | _, _ => false

/-- Routes in registration order (representatives.js lines 21, 169, 259):
the root ZIP route, then the :id route, then the search route. -/
def registeredRoutes : List (RoutePattern × RouteName) :=
  [(.root, .zipRoute), (.param, .idRoute), (.lit "search", .searchRoute)]

/-- Express dispatch: the first registered route whose pattern matches the
path wins. -/
def dispatchRepresentatives (path : List String) : Option RouteName :=
  (registeredRoutes.find? (fun pr => patternMatches pr.1 path)).map (fun pr => pr.2)

/-- The representatives router applied to a request: dispatch on the path,
then run the matched handler (with its middleware).  The :id route binds
its parameter to the single path segment.  None models Express falling
through to the 404 handler of the application. -/
def representativesRouter (db : DB) (path : List String) (q : Query) : Option (Response × Nat) :=
  match dispatchRepresentatives path with
  | some .zipRoute => some (representativesZipEndpoint db q)
  | some .idRoute => some (representativeDetail db (path.headD ""))
  | some .searchRoute => some (representativesSearch db q)
  | none => none

/-- Result of one rate limiter call: acceptance, and the retryAfter seconds
of a 429 rejection. -/
structure RateLimitResult where
  accepted : Bool
  retryAfter : Option Int
deriving DecidableEq, Repr

/-- The in-process rateLimitStore map, keyed by client address. -/
abbrev RateLimitStore := List (String × List Int)

/-- Read of the store with the empty-list default (validation.js line 131). -/
def storeGet (store : RateLimitStore) (key : String) : List Int :=
  (store.lookup key).getD []

/-- Map.set: replace the value under an existing key, or append a new
binding. -/
def storeSet (store : RateLimitStore) (key : String) (v : List Int) : RateLimitStore :=
  if (store.lookup key).isSome then
    store.map (fun kv => if kv.1 == key then (kv.1, v) else kv)
  else
    store ++ [(key, v)]

/-- Math.ceil of windowMs divided by 1000 (validation.js line 138). -/
def retryAfterSeconds (windowMs : Int) : Int :=
  (windowMs + 999).ediv 1000

/-- One call of the rate limiting middleware for a client key at time now
(validation.js lines 125-148): prune timestamps at or before now minus the
window, reject with a 429 when the remaining count reaches the maximum
(leaving the store untouched), otherwise append now and store the pruned
list. -/
def rateLimitCall (windowMs : Int) (maxRequests : Nat) (store : RateLimitStore)
    (clientIP : String) (now : Int) : RateLimitResult × RateLimitStore :=
  let windowStart := now - windowMs
  let clientRequests := storeGet store clientIP
  let validRequests := clientRequests.filter (fun t => windowStart < t)
  if maxRequests ≤ validRequests.length then
    (⟨false, some (retryAfterSeconds windowMs)⟩, store)
  else
    (⟨true, none⟩, storeSet store clientIP (validRequests ++ [now]))

/-- Sequence of rate limiter calls of one client at the given times,
threading the store; returns the acceptance of each call and the final
store. -/
def runRateLimitCalls (windowMs : Int) (maxRequests : Nat) (store : RateLimitStore)
    (key : String) : List Int → List Bool × RateLimitStore
  | [] => ([], store)
  | t :: ts =>
    let step := rateLimitCall windowMs maxRequests store key t
    let rest := runRateLimitCalls windowMs maxRequests step.2 key ts
    (step.1.accepted :: rest.1, rest.2)

/-- Sample dataset of the schema file: three geography rows, the four New
York representatives and their mappings for ZIP 11354. -/
def sampleDB : DB :=
  { geography :=
      [ { id := 1, zip_code := "11354", city := some "Flushing", state := "NY",
          state_name := some "New York", county := some "Queens",
          congressional_district := some "06" },
        { id := 2, zip_code := "20301", city := some "Washington", state := "DC",
          state_name := some "District of Columbia",
          county := some "District of Columbia", congressional_district := some "00" },
        { id := 3, zip_code := "90210", city := some "Beverly Hills", state := "CA",
          state_name := some "California", county := some "Los Angeles",
          congressional_district := some "30" } ]
    representatives :=
      [ { id := 1, name := "Grace Meng", title := "U.S. House Rep, NY-6",
          party := some "Democratic", branch := .federal,
          office_type := some "House Representative",
          website := some "https://meng.house.gov" },
        { id := 2, name := "Chuck Schumer", title := "U.S. Senator, NY",
          party := some "Democratic", branch := .federal,
          office_type := some "Senator",
          website := some "https://www.schumer.senate.gov" },
        { id := 3, name := "Kirsten Gillibrand", title := "U.S. Senator, NY",
          party := some "Democratic", branch := .federal,
          office_type := some "Senator",
          website := some "https://www.gillibrand.senate.gov" },
        { id := 4, name := "Kathy Hochul", title := "Governor, New York",
          party := some "Democratic", branch := .state,
          office_type := some "Governor",
          website := some "https://www.governor.ny.gov" } ]
    rep_geography_map :=
      [ ⟨1, 1, 1, .federal⟩, ⟨2, 2, 1, .federal⟩, ⟨3, 3, 1, .federal⟩, ⟨4, 4, 1, .state⟩ ] }

/-- Sample dataset extended with an inactive representative mapped to the
same ZIP, for exercising the include_inactive parameter. -/
def sampleDBWithInactive : DB :=
  { geography := sampleDB.geography
    representatives := sampleDB.representatives ++
      [ { id := 5, name := "Zeb Former", title := "Former Council Member",
          party := some "Democratic", branch := .«local»,
          office_type := some "Council Member", is_active := false } ]
    rep_geography_map := sampleDB.rep_geography_map ++ [⟨5, 5, 1, .«local»⟩] }

/-- Dataset in which one active representative is mapped to two geography
rows of the same state, so the search join produces two rows for one
representative. -/
def dualGeoDB : DB :=
  { geography :=
      [ { id := 1, zip_code := "11354", city := some "Flushing", state := "NY" },
        { id := 2, zip_code := "11355", city := some "Flushing", state := "NY" } ]
    representatives :=
      [ { id := 1, name := "Alice Adams", title := "State Senator",
          party := some "Democratic", branch := .state } ]
    rep_geography_map := [ ⟨1, 1, 1, .state⟩, ⟨2, 1, 2, .state⟩ ] }

example :
    (representativesZipEndpoint sampleDB [("zip", "11354")]).1.status = 200 := by decide

example :
    (representativesZipEndpoint sampleDB [("zip", "99999")]).1.status = 404 := by decide

/-- State-bucket names of a 200 ZIP response, if the response is a 200. -/
def zipOkStateNames : Response → Option (List String)
  | .zipOk body => some (body.representatives.by_branch.state.map (fun v => v.name))
  | _ => none

/-- Branch-filter meta echo of a 200 ZIP response. -/
def zipOkBranchFilter : Response → Option String
  | .zipOk body => some body.branch_filter
  | _ => none

/-- Representative ids of the full list of a 200 ZIP response. -/
def zipOkAllIds : Response → Option (List Nat)
  | .zipOk body => some (body.representatives.all.map (fun v => v.id))
  | _ => none

/-- The include_inactive meta echo of a 200 ZIP response. -/
def zipOkIncludeInactive : Response → Option Bool
  | .zipOk body => some body.include_inactive
  | _ => none

/-- Pagination total of a 200 search response. -/
def searchOkTotal : Response → Option Nat
  | .searchOk body => some body.pagination.total
  | _ => none

/-- Result ids of a 200 search response. -/
def searchOkResultIds : Response → Option (List Nat)
  | .searchOk body => some (body.results.map (fun v => v.id))
  | _ => none

/-- C1: the claim says a ZIP request with branch=federal returns only
federal representatives with empty state and local buckets, end to end
through the validation middleware.  The code contradicts it: the zipQuery
Joi schema declares only the zip field and validates with stripUnknown, so
the branch parameter is removed before the handler runs.  Evaluating the
route at the failing input (sample dataset, zip 11354, branch=federal)
shows the state bucket still holds the state representative and the meta
echo reports the branch filter as all. -/
theorem zip_branch_filter_is_stripped :
    zipOkStateNames
        (representativesZipEndpoint sampleDB [("zip", "11354"), ("branch", "federal")]).1 =
      some ["Kathy Hochul"] ∧
    zipOkBranchFilter
        (representativesZipEndpoint sampleDB [("zip", "11354"), ("branch", "federal")]).1 =
      some "all" := by
  exact ⟨rfl, rfl⟩

/-- C2: the claim says include_inactive=true additionally includes inactive
representatives, end to end through the validation middleware.  The code
contradicts it: include_inactive is not declared in the zipQuery schema and
is stripped, so the is_active filter always applies.  Evaluating the route
at the failing input (sample dataset extended with an inactive
representative of id 5 mapped to the ZIP, include_inactive=true) shows the
inactive representative is absent and the meta echo reports
include_inactive as false. -/
theorem zip_include_inactive_is_stripped :
    zipOkAllIds
        (representativesZipEndpoint sampleDBWithInactive
          [("zip", "11354"), ("include_inactive", "true")]).1 =
      some [2, 1, 3, 4] ∧
    zipOkIncludeInactive
        (representativesZipEndpoint sampleDBWithInactive
          [("zip", "11354"), ("include_inactive", "true")]).1 =
      some false := by
  exact ⟨rfl, rfl⟩

/-- C5: the claim says a criteria-less request to /representatives/search
answers 400 with the search-criteria-required body and touches no storage.
The code contradicts the body part: the :id route is registered before the
search route, so the single segment search matches the :id pattern first
and every request to the path, with or without criteria, answers 400 with
the invalid-representative-ID body (the search handler is unreachable).
The no-storage-access part does hold: parseInt of the word search is NaN,
so the handler rejects before any query. -/
theorem search_path_shadowed_by_id_route (db : DB) (q : Query) :
    representativesRouter db ["search"] q =
      some (.invalidId "Invalid representative ID"
        "Representative ID must be a valid number", 0) := rfl

/-- C8 counterexample: the claim says every non-numeric id string answers
400 before any storage access.  The id string 2abc is not a valid number,
yet parseInt truncates it to 2, the detail query runs (one storage query)
and the route answers 200 with the details of representative 2. -/
theorem detail_leading_integer_id_reaches_storage :
    (representativeDetail sampleDB "2abc").2 = 1 ∧
    ((representativeDetail sampleDB "2abc").1).status = 200 := by
  exact ⟨rfl, rfl⟩

/-- C8 amended: a numeric id with no matching row answers 404; an id that
is empty or whose parseInt is NaN answers 400 with no storage query; ids
with a parseable leading integer (such as 2abc) are truncated by parseInt
and do reach storage. -/
theorem detail_id_handling_amended (db : DB) (id : String) :
    (∀ n : Int, parseIntJS id = some n →
      (∀ r ∈ db.representatives, (r.id : Int) ≠ n) →
      (representativeDetail db id).1 =
        .repNotFound "Representative not found" ("No representative found with ID " ++ id)) ∧
    ((id = "" ∨ parseIntJS id = none) →
      representativeDetail db id =
        (.invalidId "Invalid representative ID" "Representative ID must be a valid number", 0)) := by
  constructor
  · intro n hn hnone
    have hid : id ≠ "" := by
      intro he
      rw [he] at hn
      exact Option.noConfusion ((rfl : parseIntJS "" = none) ▸ hn)
    have hfilter : db.representatives.filter (fun r => ((r.id : Int) == n)) = [] := by
      apply List.filter_eq_nil_iff.mpr
      intro r hr
      simpa using hnone r hr
    simp [representativeDetail, hid, hn, hfilter]
  · intro hcase
    rcases hcase with he | hn
    · simp [representativeDetail, he]
    · by_cases he : id = ""
      · simp [representativeDetail, he]
      · simp [representativeDetail, he, hn]

/-- Witness of the amended C8 theorem at concrete inputs: id 99 has no row
in the sample dataset and answers 404; id abc parses to NaN and answers
400 with zero storage queries. -/
theorem detail_id_handling_amended_witness :
    (representativeDetail sampleDB "99").1 =
      .repNotFound "Representative not found" "No representative found with ID 99" ∧
    representativeDetail sampleDB "abc" =
      (.invalidId "Invalid representative ID" "Representative ID must be a valid number", 0) :=
  ⟨(detail_id_handling_amended sampleDB "99").1 99 (by decide) (by decide),
   (detail_id_handling_amended sampleDB "abc").2 (Or.inr (by decide))⟩

/-- C10: a rejected rate limiter call leaves the store exactly as it was:
the rejected timestamp is not appended and the pruned list is not written
back, so rejected requests never count toward any future window. -/
theorem rate_limiter_reject_leaves_store (windowMs : Int) (maxRequests : Nat)
    (store : RateLimitStore) (key : String) (now : Int)
    (h : (rateLimitCall windowMs maxRequests store key now).1.accepted = false) :
    (rateLimitCall windowMs maxRequests store key now).2 = store := by
  by_cases hc : maxRequests ≤
      ((storeGet store key).filter (fun t => now - windowMs < t)).length
  · simp [rateLimitCall, hc]
  · simp [rateLimitCall, hc] at h

/-- Witness of C10 at a concrete rejected call: window 10, maximum 1, one
recent stored timestamp; the call at time 6 is rejected and the store is
unchanged. -/
theorem rate_limiter_reject_leaves_store_witness :
    (rateLimitCall 10 1 [("k", [5])] "k" 6).2 = [("k", [5])] :=
  rate_limiter_reject_leaves_store 10 1 [("k", [5])] "k" 6 (by decide)

/-- Helper for C6: while every stored timestamp stays inside the window of
every call and the maximum is not reached, each call is accepted and the
single-key store accumulates the call times in order. -/
lemma runRateLimitCalls_accepts (W : Int) (maxR : Nat) (key : String) (lo : Int) :
    ∀ (ts s : List Int),
      (∀ a ∈ s, lo < a) →
      (∀ t ∈ ts, lo < t ∧ t - W ≤ lo) →
      s.length + ts.length ≤ maxR →
      runRateLimitCalls W maxR [(key, s)] key ts =
        (List.replicate ts.length true, [(key, s ++ ts)]) := by
  intro ts
  induction ts with
  | nil =>
    intro s _ _ _
    simp [runRateLimitCalls]
  | cons t ts ih =>
    intro s hs hts hlen
    have hkeep : s.filter (fun a => t - W < a) = s := by
      apply List.filter_eq_self.mpr
      intro a ha
      have h1 : lo < a := hs a ha
      have h2 : t - W ≤ lo := (hts t (by simp)).2
      simp only [decide_eq_true_eq]
      omega
    have hget : storeGet [(key, s)] key = s := by
      simp [storeGet, List.lookup]
    have hcount : ¬ maxR ≤ s.length := by
      simp only [List.length_cons] at hlen
      omega
    have hset : storeSet [(key, s)] key (s ++ [t]) = [(key, s ++ [t])] := by
      simp [storeSet, List.lookup]
    have hstep : rateLimitCall W maxR [(key, s)] key t =
        (⟨true, none⟩, [(key, s ++ [t])]) := by
      simp only [rateLimitCall, hget, hkeep, hset, if_neg hcount]
    have hrec := ih (s ++ [t])
      (by
        intro a ha
        rcases List.mem_append.mp ha with h | h
        · exact hs a h
        · have : a = t := by simpa using h
          exact this ▸ (hts t (by simp)).1)
      (fun u hu => hts u (by simp [hu]))
      (by simp only [List.length_append, List.length_singleton]
          simp only [List.length_cons] at hlen
          omega)
    simp only [runRateLimitCalls, hstep, hrec]
    simp only [Prod.mk.injEq]
    constructor
    · simp [List.replicate_succ]
    · simp [List.append_assoc]

/-- C6: the rate limiter with maximum 100 and window 900000 milliseconds.
For any single client key starting from an empty store: any 100 calls whose
times lie inside the window ending at the 101st call time are all accepted
and stored in order; the 101st call is then rejected with retryAfter equal
to the window in seconds (900) and the store is left unchanged; and once
time advances past the window (every stored time at least a full window
before the new call) a subsequent call is accepted again. -/
theorem rate_limiter_window_behavior (ts : List Int) (t101 tLater : Int)
    (hlen : ts.length = 100)
    (hwin : ∀ t ∈ ts, t101 - 900000 < t ∧ t ≤ t101)
    (hlater : ∀ t ∈ ts, t + 900000 ≤ tLater) :
    (runRateLimitCalls 900000 100 [] "client" ts).1 = List.replicate 100 true ∧
    (runRateLimitCalls 900000 100 [] "client" ts).2 = [("client", ts)] ∧
    rateLimitCall 900000 100 [("client", ts)] "client" t101 =
      (⟨false, some 900⟩, [("client", ts)]) ∧
    (rateLimitCall 900000 100 [("client", ts)] "client" tLater).1.accepted = true := by
  have hrun : runRateLimitCalls 900000 100 [] "client" ts =
      (List.replicate 100 true, [("client", ts)]) := by
    cases ts with
    | nil => simp at hlen
    | cons t ts =>
      have hstep : rateLimitCall 900000 100 [] "client" t =
          (⟨true, none⟩, [("client", [t])]) := by
        simp [rateLimitCall, storeGet, storeSet, List.lookup]
      have hrec := runRateLimitCalls_accepts 900000 100 "client" (t101 - 900000) ts [t]
        (by
          intro a ha
          have : a = t := by simpa using ha
          exact this ▸ (hwin t (by simp)).1)
        (by
          intro u hu
          refine ⟨(hwin u (by simp [hu])).1, ?_⟩
          have := (hwin u (by simp [hu])).2
          omega)
        (by
          simp only [List.length_cons] at hlen
          simp only [List.length_singleton]
          omega)
      simp only [List.length_cons] at hlen
      simp only [runRateLimitCalls, hstep, hrec]
      simp only [Prod.mk.injEq]
      constructor
      · rw [← hlen]
        simp [List.replicate_succ]
      · simp
  refine ⟨by rw [hrun], by rw [hrun], ?_, ?_⟩
  · have hkeep : ts.filter (fun a => t101 - 900000 < a) = ts := by
      apply List.filter_eq_self.mpr
      intro a ha
      simp only [decide_eq_true_eq]
      exact (hwin a ha).1
    have hget : storeGet [("client", ts)] "client" = ts := by
      simp [storeGet, List.lookup]
    have hcount : 100 ≤ ts.length := by omega
    simp only [rateLimitCall, hget, hkeep, if_pos hcount]
    rfl
  · have hkeep : ts.filter (fun a => tLater - 900000 < a) = [] := by
      apply List.filter_eq_nil_iff.mpr
      intro a ha
      have := hlater a ha
      simp only [decide_eq_true_eq]
      omega
    have hget : storeGet [("client", ts)] "client" = ts := by
      simp [storeGet, List.lookup]
    have hcount : ¬ 100 ≤ (0 : Nat) := by omega
    simp [rateLimitCall, hget, hkeep]

/-- Witness of C6 at concrete inputs: one hundred calls at time 0, a
rejected call at time 0 with retryAfter 900, and an accepted call at time
900000 (one full window later). -/
theorem rate_limiter_window_behavior_witness :
    (runRateLimitCalls 900000 100 [] "client" (List.replicate 100 (0 : Int))).1 =
      List.replicate 100 true ∧
    rateLimitCall 900000 100 [("client", List.replicate 100 (0 : Int))] "client" 0 =
      (⟨false, some 900⟩, [("client", List.replicate 100 (0 : Int))]) ∧
    (rateLimitCall 900000 100 [("client", List.replicate 100 (0 : Int))] "client"
        900000).1.accepted = true := by
  have H := rate_limiter_window_behavior (List.replicate 100 (0 : Int)) 0 900000
    (by simp)
    (by
      intro t ht
      have : t = 0 := List.eq_of_mem_replicate ht
      subst this
      omega)
    (by
      intro t ht
      have : t = 0 := List.eq_of_mem_replicate ht
      subst this
      omega)
  exact ⟨H.1, H.2.2.1, H.2.2.2⟩

/-- Ordering invariant of a returned representative list: an earlier entry
has strictly smaller branch priority, or equal branch and a name that is
lexicographically no greater. -/
def orderedByBranchThenName (l : List RepView) : Prop :=
  l.Pairwise (fun a b =>
    branchOrder a.branch < branchOrder b.branch ∨
      (branchOrder a.branch = branchOrder b.branch ∧ a.name.data ≤ b.name.data))

/-- The ordered list of the ZIP route satisfies the ordering invariant. -/
lemma zipAllList_ordered (db : DB) (gid : Nat) (inc : String) (br : Option String) :
    orderedByBranchThenName (zipAllList db gid inc br) := by
  unfold zipAllList orderedByBranchThenName
  refine List.Pairwise.map _ ?_ (List.sorted_insertionSort repRowRel _)
  intro a b hab
  exact hab

/-- The ordering invariant survives filtering (the branch buckets are
filters of the ordered list). -/
lemma orderedByBranchThenName_filter (l : List RepView) (p : RepView → Bool)
    (h : orderedByBranchThenName l) : orderedByBranchThenName (l.filter p) :=
  List.Pairwise.sublist (List.filter_sublist l) h

/-- C3: every list a 200 ZIP lookup returns satisfies the ordering
invariant: a representative of branch federal precedes one of branch state,
state precedes local, and within a run of equal branch the names are
non-decreasing lexicographically.  This holds for the full list and for
each branch bucket. -/
theorem zip_lookup_ordering_invariant (db : DB) (q : Query) (body : ZipOkBody)
    (h : (representativesZipEndpoint db q).1 = .zipOk body) :
    orderedByBranchThenName body.representatives.all ∧
    orderedByBranchThenName body.representatives.by_branch.federal ∧
    orderedByBranchThenName body.representatives.by_branch.state ∧
    orderedByBranchThenName body.representatives.by_branch.«local» := by
  unfold representativesZipEndpoint at h
  split at h
  · simp at h
  · unfold representativesRoot at h
    split at h
    · simp at h
    · split at h
      · simp at h
      · next g tail hg =>
        simp only [Response.zipOk.injEq] at h
        subst h
        exact ⟨zipAllList_ordered db g.id _ _,
          orderedByBranchThenName_filter _ _ (zipAllList_ordered db g.id _ _),
          orderedByBranchThenName_filter _ _ (zipAllList_ordered db g.id _ _),
          orderedByBranchThenName_filter _ _ (zipAllList_ordered db g.id _ _)⟩

/-- Body of the sample 200 response used to witness the ordering theorem. -/
def sampleZipOkBody : ZipOkBody :=
  match (representativesZipEndpoint sampleDB [("zip", "11354")]).1 with
  | .zipOk body => body
  | _ => ⟨"", ⟨none, "", none, none, none, none⟩, ⟨0, ⟨[], [], []⟩, []⟩, false, ""⟩

/-- Witness of C3 at a concrete request: the sample dataset at ZIP 11354. -/
theorem zip_lookup_ordering_invariant_witness :
    orderedByBranchThenName sampleZipOkBody.representatives.all ∧
    orderedByBranchThenName sampleZipOkBody.representatives.by_branch.federal ∧
    orderedByBranchThenName sampleZipOkBody.representatives.by_branch.state ∧
    orderedByBranchThenName sampleZipOkBody.representatives.by_branch.«local» :=
  zip_lookup_ordering_invariant sampleDB [("zip", "11354")] sampleZipOkBody (by decide)

/-- C7: a well-formed five-digit ZIP with no geography row always answers
404 with the verify-the-ZIP suggestion body, never 200 with an empty
representatives list. -/
theorem unknown_zip_not_found (db : DB) (q : Query) (zip : String)
    (hzip : q.lookup "zip" = some zip)
    (hshape : isFiveDigitZip zip = true)
    (hnone : ∀ g ∈ db.geography, g.zip_code ≠ zip) :
    (representativesZipEndpoint db q).1 =
      .zipNotFound "ZIP code not found" ("No data available for ZIP code " ++ zip)
        "Please verify the ZIP code or try a nearby area" ∧
    ((representativesZipEndpoint db q).1).status = 404 := by
  have hz : zip ≠ "" := by
    intro he
    rw [he] at hshape
    exact absurd hshape (by decide)
  have hfilter : db.geography.filter (fun g => g.zip_code == zip) = [] := by
    apply List.filter_eq_nil_iff.mpr
    intro g hg
    simpa using hnone g hg
  have hvalid : validateZipQuery q = .ok [("zip", zip)] := by
    unfold validateZipQuery
    rw [hzip]
    simp [hz, hshape]
  have hlook : List.lookup "zip" ([("zip", zip)] : Query) = some zip := by
    simp [List.lookup]
  have hres : (representativesZipEndpoint db q).1 =
      .zipNotFound "ZIP code not found" ("No data available for ZIP code " ++ zip)
        "Please verify the ZIP code or try a nearby area" := by
    unfold representativesZipEndpoint
    rw [hvalid]
    unfold representativesRoot
    simp only [hlook, hfilter]
  exact ⟨hres, by rw [hres]; rfl⟩

/-- Witness of C7: ZIP 99999 is absent from the sample dataset. -/
theorem unknown_zip_not_found_witness :
    (representativesZipEndpoint sampleDB [("zip", "99999")]).1 =
      .zipNotFound "ZIP code not found" "No data available for ZIP code 99999"
        "Please verify the ZIP code or try a nearby area" ∧
    ((representativesZipEndpoint sampleDB [("zip", "99999")]).1).status = 404 :=
  unknown_zip_not_found sampleDB [("zip", "99999")] "99999" (by decide) (by decide) (by decide)

/-- Helper: every element of the distinct list comes from the input. -/
lemma distinctFrom_subset {α : Type} [DecidableEq α] :
    ∀ (l seen : List α) (x : α), x ∈ distinctFrom seen l → x ∈ l := by
  intro l
  induction l with
  | nil => intro seen x hx; simp [distinctFrom] at hx
  | cons a l ih =>
    intro seen x hx
    unfold distinctFrom at hx
    by_cases ha : a ∈ seen
    · rw [if_pos ha] at hx
      exact List.mem_cons_of_mem a (ih seen x hx)
    · rw [if_neg ha] at hx
      rcases List.mem_cons.mp hx with h | h
      · exact h ▸ List.mem_cons_self a l
      · exact List.mem_cons_of_mem a (ih (a :: seen) x h)

/-- Helper: the distinct list avoids everything already seen. -/
lemma distinctFrom_not_mem_seen {α : Type} [DecidableEq α] :
    ∀ (l seen : List α) (x : α), x ∈ distinctFrom seen l → x ∉ seen := by
  intro l
  induction l with
  | nil => intro seen x hx; simp [distinctFrom] at hx
  | cons a l ih =>
    intro seen x hx
    unfold distinctFrom at hx
    by_cases ha : a ∈ seen
    · rw [if_pos ha] at hx
      exact ih seen x hx
    · rw [if_neg ha] at hx
      rcases List.mem_cons.mp hx with h | h
      · exact h ▸ ha
      · intro hseen
        exact ih (a :: seen) x h (List.mem_cons_of_mem a hseen)

/-- Helper: duplicate elimination produces a list without duplicates. -/
lemma distinctFrom_nodup {α : Type} [DecidableEq α] :
    ∀ (l seen : List α), (distinctFrom seen l).Nodup := by
  intro l
  induction l with
  | nil => intro seen; simp [distinctFrom]
  | cons a l ih =>
    intro seen
    unfold distinctFrom
    by_cases ha : a ∈ seen
    · rw [if_pos ha]
      exact ih seen
    · rw [if_neg ha]
      refine List.nodup_cons.mpr ⟨?_, ih (a :: seen)⟩
      intro hmem
      exact distinctFrom_not_mem_seen l (a :: seen) a hmem (List.mem_cons_self a seen)

/-- Helper: every row of the returned search page is a selected row of the
full filtered set, carrying the windowed count of that set. -/
lemma mem_searchPage (db : DB) (crit : SearchCriteria) (l o : Int) (x : SearchSelectedRow)
    (hx : x ∈ searchPage db crit l o) :
    x ∈ (searchFilteredRows db crit).map
      (selectSearchRow (searchFilteredRows db crit).length) := by
  simp only [searchPage] at hx
  have hsub : ((((searchDistinct ((searchFilteredRows db crit).map
      (selectSearchRow (searchFilteredRows db crit).length))).insertionSort
        searchNameRel).drop o.toNat).take l.toNat).Sublist
      ((searchDistinct ((searchFilteredRows db crit).map
        (selectSearchRow (searchFilteredRows db crit).length))).insertionSort
          searchNameRel) :=
    (List.take_sublist _ _).trans (List.drop_sublist _ _)
  have h1 := hsub.mem hx
  have h2 := (List.perm_insertionSort searchNameRel _).mem_iff.mp h1
  exact distinctFrom_subset _ _ _ h2

/-- Helper: the total_count column of every returned page row equals the
size of the full filtered (pre-DISTINCT, unpaginated) row set. -/
lemma searchPage_total_count (db : DB) (crit : SearchCriteria) (l o : Int)
    (x : SearchSelectedRow) (hx : x ∈ searchPage db crit l o) :
    x.total_count = (searchFilteredRows db crit).length := by
  rcases List.mem_map.mp (mem_searchPage db crit l o x hx) with ⟨row, _, hrow⟩
  rw [← hrow]
  rfl

/-- Helper: the representative of every search join row is a table row. -/
lemma searchJoinRows_rep_mem (db : DB) (row : SearchRow) (h : row ∈ searchJoinRows db) :
    row.rep ∈ db.representatives := by
  unfold searchJoinRows at h
  rcases List.mem_flatMap.mp h with ⟨r, hr, hrow⟩
  have hrep : row.rep = r := by
    rcases hmatch : db.rep_geography_map.filter (fun m => m.representative_id == r.id)
      with _ | ⟨m, ms⟩
    · rw [hmatch] at hrow
      simp only [List.mem_singleton] at hrow
      rw [hrow]
    · rw [hmatch] at hrow
      rcases List.mem_map.mp hrow with ⟨m2, _, hm2⟩
      rw [← hm2]
  rw [hrep]
  exact hr

/-- Helper: the returned search page has no duplicate rows. -/
lemma searchPage_nodup (db : DB) (crit : SearchCriteria) (l o : Int) :
    (searchPage db crit l o).Nodup := by
  simp only [searchPage]
  refine List.Nodup.sublist ((List.take_sublist _ _).trans (List.drop_sublist _ _)) ?_
  exact ((List.perm_insertionSort searchNameRel _).nodup_iff).mpr (distinctFrom_nodup _ _)

/-- C4 amended: every 200 search response over a table with unique
representative ids deduplicates by representative identity (the returned
page never repeats a representative id), and the reported pagination total
is 0 when the returned page is empty and otherwise equals the number of
pre-deduplication join rows of the full unpaginated filtered set - a value
independent of limit and offset, but not the number of distinct matching
representatives. -/
theorem search_dedup_and_total_amended (db : DB) (q : Query) (body : SearchBody)
    (hids : (db.representatives.map Representative.id).Nodup)
    (h : (representativesSearch db q).1 = .searchOk body) :
    body.results.Pairwise (fun a b => a.id ≠ b.id) ∧
    body.pagination.total =
      (if body.results.isEmpty then 0
       else (searchFilteredRows db (searchCriteriaOf q)).length) := by
  simp only [representativesSearch] at h
  split at h
  · simp at h
  · split at h
    · next _ _ l o _ _ =>
      split at h
      · simp at h
      · simp only [Response.searchOk.injEq] at h
        subst h
        constructor
        · refine List.Pairwise.map _ (fun a b hab => hab) ?_
          have hnd := searchPage_nodup db (searchCriteriaOf q) l o
          refine List.Pairwise.imp_of_mem ?_ hnd
          intro a b ha hb hne
          intro hid
          apply hne
          rcases List.mem_map.mp (mem_searchPage db (searchCriteriaOf q) l o a ha)
            with ⟨ra, hra, rfl⟩
          rcases List.mem_map.mp (mem_searchPage db (searchCriteriaOf q) l o b hb)
            with ⟨rb, hrb, rfl⟩
          have hmema : ra.rep ∈ db.representatives :=
            searchJoinRows_rep_mem db ra (List.mem_of_mem_filter hra)
          have hmemb : rb.rep ∈ db.representatives :=
            searchJoinRows_rep_mem db rb (List.mem_of_mem_filter hrb)
          have hrepeq : ra.rep = rb.rep :=
            List.inj_on_of_nodup_map hids hmema hmemb hid
          unfold selectSearchRow
          rw [hrepeq]
        · rcases hp : searchPage db (searchCriteriaOf q) l o with _ | ⟨r, rest⟩
          · simp [hp]
          · have hr : r ∈ searchPage db (searchCriteriaOf q) l o := by
              rw [hp]
              exact List.mem_cons_self r rest
            have htc := searchPage_total_count db (searchCriteriaOf q) l o r hr
            simp [hp, htc]
    · next => simp at h

/-- Dataset and query showing the counted total: one active representative
matching through two geographies. -/
def dualGeoSearchBody : SearchBody :=
  match (representativesSearch dualGeoDB [("name", "alice")]).1 with
  | .searchOk body => body
  | _ => ⟨[], ⟨0, 0, 0, false⟩, ⟨none, none, none, none⟩⟩

/-- C4 counterexample: in a dataset where one representative matches the
search through two geographies, the response deduplicates the results (one
row, id 1) but reports pagination total 2, the pre-deduplication join row
count, not the number of distinct matching representatives (1) the claim
requires. -/
theorem search_total_counts_join_rows :
    searchOkTotal (representativesSearch dualGeoDB [("name", "alice")]).1 = some 2 ∧
    searchOkResultIds (representativesSearch dualGeoDB [("name", "alice")]).1 = some [1] := by
  exact ⟨rfl, rfl⟩

/-- Witness of the amended C4 theorem at the dual-geography dataset. -/
theorem search_dedup_and_total_amended_witness :
    dualGeoSearchBody.results.Pairwise (fun a b => a.id ≠ b.id) ∧
    dualGeoSearchBody.pagination.total =
      (if dualGeoSearchBody.results.isEmpty then 0
       else (searchFilteredRows dualGeoDB (searchCriteriaOf [("name", "alice")])).length) :=
  search_dedup_and_total_amended dualGeoDB [("name", "alice")] dualGeoSearchBody
    (by decide) (by decide)

/-- C9: in every 200 search response, has_more is true exactly when the
number of returned rows equals the requested limit (the documented
approximation; it may be true even when no further rows exist). -/
theorem search_has_more_iff_page_equals_limit (db : DB) (q : Query) (body : SearchBody)
    (h : (representativesSearch db q).1 = .searchOk body) :
    (body.pagination.has_more = true ↔
      (body.results.length : Int) = body.pagination.limit) := by
  simp only [representativesSearch] at h
  split at h
  · simp at h
  · split at h
    · next _ _ l o _ _ =>
      split at h
      · simp at h
      · simp only [Response.searchOk.injEq] at h
        subst h
        simp [List.length_map, beq_iff_eq]
    · next => simp at h

/-- Body used to witness the has_more theorem: a sample search whose page
size equals the requested limit. -/
def sampleSearchPageBody : SearchBody :=
  match (representativesSearch sampleDB [("name", "e"), ("limit", "2")]).1 with
  | .searchOk body => body
  | _ => ⟨[], ⟨0, 0, 0, false⟩, ⟨none, none, none, none⟩⟩

/-- Witness of C9 at a concrete request with limit 2 over three matches. -/
theorem search_has_more_iff_page_equals_limit_witness :
    sampleSearchPageBody.pagination.has_more = true ↔
      (sampleSearchPageBody.results.length : Int) = sampleSearchPageBody.pagination.limit :=
  search_has_more_iff_page_equals_limit sampleDB [("name", "e"), ("limit", "2")]
    sampleSearchPageBody (by decide)
